import Mathlib

/-! Shallow embedding of the state actor of iterion/jira-ticket-fetch.

The embedded code lives in src/state.rs (the actor `updater` and
`handle_input`), src/jira.rs (`JiraClient::current_issues` query
construction) and src/events.rs (the event type, extended with the two
transition variants that src/state.rs consumes).  The repository's
`utils` module (the `StatefulList` container) is not present under src/,
so it is modelled from the specification's description of the Selection
List abstraction; every such definition carries a doc comment starting
with `Modelled from the spec:`.

External side effects (spawned fetch tasks, configuration persistence,
git calls, opening permalinks) are embedded as follows: a synchronous
external call consulted during `handle_input` reads its outcome from an
`Env` record, and a spawned fire-and-forget task is recorded as an
`Effect` value; the events such a task would send back on the bus are
modelled by dedicated `*_events` functions taking the collaborator
outcome as an argument.  A Rust panic reachable from the actor loop is
modelled as the `none` case of an `Option` result.
-/

/-- IssueSummary from src/jira.rs. -/
structure IssueSummary where
  key : String
  summary : String
  permalink : String
  deriving DecidableEq, Repr

/-- BoardSummary from src/jira.rs. -/
structure BoardSummary where
  key : Nat
  name : String
  permalink : String
  deriving DecidableEq, Repr

/-- TransitionSummary from src/jira.rs. -/
structure TransitionSummary where
  key : String
  name : String
  deriving DecidableEq, Repr

/-- BranchSummary from src/git.rs. -/
structure BranchSummary where
  name : String
  deriving DecidableEq, Repr

/-- Config from src/config.rs. -/
structure Config where
  default_project_key : String
  filter_in_progress : Bool
  filter_mine : Bool
  deriving DecidableEq, Repr

/-- Default impl for Config from src/config.rs: empty project key, both
filters on. -/
def Config.default : Config :=
  { default_project_key := "", filter_in_progress := true, filter_mine := true }

/-- Cursor state of a list widget: the optional selected index. -/
structure ListState where
  selected : Option Nat
  deriving DecidableEq, Repr

/-- Modelled from the spec: the repository's utils module (StatefulList)
is absent from src/.  A Selection List is an ordered sequence plus an
optional cursor index (spec section 3). -/
structure StatefulList (α : Type) where
  state : ListState
  items : List α
  deriving DecidableEq, Repr

namespace StatefulList

/-- Modelled from the spec: a fresh Selection List is empty with the
cursor absent (an empty sequence forces the cursor to absent). -/
def new {α : Type} : StatefulList α :=
  { state := { selected := none }, items := [] }

/-- Modelled from the spec: with_items installs a sequence with the
cursor initially absent; the spec's wholesale replacement (cursor reset
to the first element when non-empty) is realised by the handlers as
with_items followed by advance. -/
def with_items {α : Type} (items : List α) : StatefulList α :=
  { state := { selected := none }, items := items }

/-- Modelled from the spec: advance() is a no-op on an empty sequence,
selects index 0 from an absent cursor, and wraps from the last index
back to index 0 (spec section 4.3). -/
def next {α : Type} (l : StatefulList α) : StatefulList α :=
  if l.items.isEmpty then l
  else
    match l.state.selected with
    | none => { l with state := { selected := some 0 } }
    | some i =>
        if i + 1 ≥ l.items.length then { l with state := { selected := some 0 } }
        else { l with state := { selected := some (i + 1) } }

/-- Modelled from the spec: retreat() is the symmetric counterpart of
advance(): a no-op on an empty sequence, wrapping from index 0 back to
the last index; from an absent cursor it selects the last index (the
symmetric reading of spec section 4.3, which leaves this case open). -/
def previous {α : Type} (l : StatefulList α) : StatefulList α :=
  if l.items.isEmpty then l
  else
    match l.state.selected with
    | none => { l with state := { selected := some (l.items.length - 1) } }
    | some i =>
        if i = 0 then { l with state := { selected := some (l.items.length - 1) } }
        else { l with state := { selected := some (i - 1) } }

/-- Modelled from the spec: clear_selection() sets the cursor to absent
without altering the sequence. -/
def unselect {α : Type} (l : StatefulList α) : StatefulList α :=
  { l with state := { selected := none } }

end StatefulList

/-- InputMode from src/state.rs. -/
inductive InputMode
  | IssuesList
  | BoardsList
  | Editing
  | UpdateIssueStatus
  | EditingDefaultProject
  deriving DecidableEq, Repr

/-- KeyCode: the crossterm key codes that src/state.rs matches on, with
a catch-all for every other key. -/
inductive KeyCode
  | Char (c : Char)
  | Enter
  | Esc
  | Backspace
  | Left
  | Right
  | Up
  | Down
  | Other
  deriving DecidableEq, Repr

/-- Event from src/events.rs, extended with the TransitionsFetched and
TransitionExecuted variants that the actor loop in src/state.rs
consumes.  The spec names these IssuesFetched, BoardsFetched,
BranchesFetched, TransitionsFetched and TransitionApplied. -/
inductive Event
  | KeyEvent (code : KeyCode)
  | IssuesUpdated (issues : List IssueSummary)
  | BoardsUpdated (boards : List BoardSummary)
  | BranchesUpdated (branches : List BranchSummary)
  | TransitionsFetched (transitions : List TransitionSummary)
  | TransitionExecuted
  deriving DecidableEq, Repr

/-- State from src/state.rs. -/
structure State where
  issues : StatefulList IssueSummary
  boards : StatefulList BoardSummary
  branches : StatefulList BranchSummary
  transitions : StatefulList TransitionSummary
  config : Config
  input_mode : InputMode
  issues_focused : Bool
  input : String
  deriving DecidableEq, Repr

/-- State::new from src/state.rs, with the result of load_config passed
in (load_config reads the on-disk configuration, an external
collaborator). -/
def State.new (config : Config) : State :=
  { issues := StatefulList.new
    boards := StatefulList.new
    branches := StatefulList.new
    transitions := StatefulList.new
    issues_focused := true
    input_mode := InputMode.IssuesList
    input := ""
    config := config }

/-- State::selected_issue_key from src/state.rs: the key of the issue at
the cursor, when the cursor is present and in bounds. -/
def State.selected_issue_key (s : State) : Option String :=
  match s.issues.state.selected with
  | some i => (s.issues.items.get? i).map IssueSummary.key
  | none => none

/-- State::selected_issue_permalink from src/state.rs.  The code indexes
the items vector directly, so a present cursor that is out of bounds
panics: the outer none models that panic. -/
def State.selected_issue_permalink (s : State) : Option (Option String) :=
  match s.issues.state.selected with
  | some i => (s.issues.items.get? i).map (fun issue => some issue.permalink)
  | none => some none

/-- State::selected_branch_name from src/state.rs.  Direct indexing as
in selected_issue_permalink: the outer none models the panic. -/
def State.selected_branch_name (s : State) : Option (Option String) :=
  match s.branches.state.selected with
  | some i => (s.branches.items.get? i).map (fun b => some b.name)
  | none => some none

/-- State::new_branch_name from src/state.rs. -/
def State.new_branch_name (s : State) : String :=
  match s.selected_issue_key with
  | some key => key ++ "-" ++ s.input
  | none => "unhandled-error"

/-- Query construction inside JiraClient::current_issues
(src/jira.rs lines 25-43): push assignee clause if filter_mine, one of
the two status clauses, the project clause if the key is non-empty, then
join with AND. -/
def current_issues_query (config : Config) : String :=
  let query_parts : List String :=
    (if config.filter_mine then ["assignee=currentuser()"] else []) ++
    (if config.filter_in_progress then ["status=3"] else ["status=\"Prioritised\""]) ++
    (if config.default_project_key ≠ "" then
      ["project = \"" ++ config.default_project_key ++ "\""] else [])
  String.intercalate " AND " query_parts

/-- Fire-and-forget side effects that handle_input and the actor loop
spawn or request: each constructor records one spawned task or one
persistence request, with the data the Rust code clones into it. -/
inductive Effect
  | FetchTickets (config : Config)
  | FetchBoards (config : Config)
  | FetchTransitions (key : Option String)
  | FindBranches (key : String)
  | DoTransition (selected : Option Nat)
  | SaveConfig (config : Config)
  | OpenLink (url : String)
  deriving DecidableEq, Repr

/-- Outcomes of the synchronous external calls that handle_input makes:
save_config, get_current_repo, checkout_branch and
create_and_use_branch.  The branch operations receive the branch name
the code passes them. -/
structure Env where
  save_config_result : Except String Unit
  get_repo_result : Except String Unit
  checkout_result : String → Except String Unit
  create_branch_result : String → Except String Unit

/-- Environment in which every external call succeeds. -/
def Env.allOk : Env :=
  { save_config_result := Except.ok ()
    get_repo_result := Except.ok ()
    checkout_result := fun _ => Except.ok ()
    create_branch_result := fun _ => Except.ok () }

/-- Result type of one handle_input call: none models a panic reachable
from the loop (an out-of-bounds index or the unwrap of
get_current_repo), Except.error models the bail! macro (an anyhow error
returned from handle_input), and Except.ok carries the updated state
together with the effects spawned along the way. -/
def HIResult : Type := Option (Except String (State × List Effect))

/-- Normal return from handle_input. -/
def hiOk (s : State) (effects : List Effect) : HIResult :=
  some (Except.ok (s, effects))

/-- A bail! from handle_input. -/
def hiBail (msg : String) : HIResult :=
  some (Except.error msg)

/-- A panic inside handle_input. -/
def hiPanic : HIResult := none

/-- fn find_relevant_branches from src/state.rs (lines 116-126): spawn a
branch lookup task only when an issue key is selected. -/
def find_relevant_branches_effects (s : State) : List Effect :=
  match s.selected_issue_key with
  | some key => [Effect.FindBranches key]
  | none => []

/-- fn handle_input from src/state.rs (lines 217-389), translated match
arm by match arm.  Synchronous external calls read their outcomes from
env; spawned tasks are recorded as effects. -/
def handle_input (env : Env) (s : State) (input : KeyCode) : HIResult :=
  match s.input_mode with
  | InputMode.IssuesList =>
    match input with
    | KeyCode.Char c =>
      if c = 'b' then
        hiOk { s with input_mode := InputMode.BoardsList }
          [Effect.FetchBoards s.config]
      else if c = 'c' then
        hiOk { s with input := s.config.default_project_key,
                      input_mode := InputMode.EditingDefaultProject } []
      else if c = 'i' then
        let config := { s.config with filter_in_progress := !s.config.filter_in_progress }
        hiOk { s with config := config }
          [Effect.SaveConfig config, Effect.FetchTickets config]
      else if c = 'm' then
        let config := { s.config with filter_mine := !s.config.filter_mine }
        hiOk { s with config := config }
          [Effect.SaveConfig config, Effect.FetchTickets config]
      else if c = 'o' then
        match s.selected_issue_permalink with
        | none => hiPanic
        | some none => hiOk s []
        | some (some link) => hiOk s [Effect.OpenLink link]
      else if c = 'q' then
        hiBail "Just exiting early"
      else if c = 'r' then
        hiOk s [Effect.FetchTickets s.config]
      else if c = 's' then
        hiOk { s with input_mode := InputMode.UpdateIssueStatus }
          [Effect.FetchTransitions s.selected_issue_key]
      else
        hiOk s []
    | KeyCode.Enter =>
      if s.issues_focused then
        hiOk { s with branches := s.branches.next, issues_focused := false } []
      else
        match s.selected_branch_name with
        | none => hiPanic
        | some none => hiOk s []
        | some (some name) =>
          if name = "Create New" then
            hiOk { s with input_mode := InputMode.Editing } []
          else
            match env.get_repo_result with
            | Except.error _ => hiPanic
            | Except.ok _ =>
              match env.checkout_result name with
              | Except.ok _ => hiBail "Done!"
              | Except.error _ => hiOk s []
    | KeyCode.Right =>
      if s.issues_focused && s.selected_issue_key.isSome then
        hiOk { s with branches := s.branches.next, issues_focused := false } []
      else
        hiOk s []
    | KeyCode.Left =>
      if s.issues_focused then
        hiOk { s with issues := s.issues.unselect,
                      branches := { s.branches with items := [] } } []
      else
        hiOk { s with branches := s.branches.unselect, issues_focused := true } []
    | KeyCode.Down =>
      if s.issues_focused then
        let s₁ := { s with issues := s.issues.next }
        hiOk s₁ (find_relevant_branches_effects s₁)
      else
        hiOk { s with branches := s.branches.next } []
    | KeyCode.Up =>
      if s.issues_focused then
        let s₁ := { s with issues := s.issues.previous }
        hiOk s₁ (find_relevant_branches_effects s₁)
      else
        hiOk { s with branches := s.branches.previous } []
    | _ => hiOk s []
  | InputMode.BoardsList =>
    match input with
    | KeyCode.Esc => hiOk { s with input_mode := InputMode.IssuesList } []
    | KeyCode.Enter => hiOk s []
    | KeyCode.Down => hiOk { s with boards := s.boards.next } []
    | KeyCode.Up => hiOk { s with boards := s.boards.previous } []
    | KeyCode.Char c =>
      if c = 'o' then
        match s.boards.state.selected with
        | none => hiOk s []
        | some i =>
          match s.boards.items.get? i with
          | none => hiPanic
          | some board => hiOk s [Effect.OpenLink board.permalink]
      else
        hiOk s []
    | _ => hiOk s []
  | InputMode.UpdateIssueStatus =>
    match input with
    | KeyCode.Esc => hiOk { s with input_mode := InputMode.IssuesList } []
    | KeyCode.Down => hiOk { s with transitions := s.transitions.next } []
    | KeyCode.Up => hiOk { s with transitions := s.transitions.previous } []
    | KeyCode.Enter => hiOk s [Effect.DoTransition s.transitions.state.selected]
    | _ => hiOk s []
  | InputMode.Editing =>
    match input with
    | KeyCode.Enter =>
      match env.get_repo_result with
      | Except.error _ => hiOk s []
      | Except.ok _ =>
        match env.create_branch_result s.new_branch_name with
        | Except.ok _ => hiBail "Done!"
        | Except.error _ => hiOk s []
    | KeyCode.Char c => hiOk { s with input := s.input.push c } []
    | KeyCode.Backspace => hiOk { s with input := s.input.dropRight 1 } []
    | KeyCode.Esc => hiOk { s with input_mode := InputMode.IssuesList } []
    | _ => hiOk s []
  | InputMode.EditingDefaultProject =>
    match input with
    | KeyCode.Enter =>
      let config := { s.config with default_project_key := s.input }
      match env.save_config_result with
      | Except.ok _ =>
        hiOk { s with config := config, input_mode := InputMode.IssuesList }
          [Effect.FetchTickets config]
      | Except.error e =>
        hiOk { s with config := config, input := e } []
    | KeyCode.Char c => hiOk { s with input := s.input.push c } []
    | KeyCode.Backspace => hiOk { s with input := s.input.dropRight 1 } []
    | KeyCode.Esc => hiOk { s with input_mode := InputMode.IssuesList } []
    | _ => hiOk s []

/-- Result of processing one event in the actor loop of fn updater
(src/state.rs lines 36-80): the continuation state (none when the loop
breaks), the effects spawned while processing, and the snapshots sent to
the snapshot channel during the step, in order. -/
structure StepResult where
  next : Option State
  effects : List Effect
  snapshots : List State
  deriving Repr

/-- One iteration of the actor loop in fn updater (src/state.rs lines
36-80), for one received event.  A key event is given to handle_input;
when that returns an error the loop breaks without sending a snapshot,
otherwise the updated state is sent.  Each completion event updates the
corresponding list and sends a snapshot; none of them inspects the
input mode.  The outer none models a panic inside handle_input. -/
def updater_step (env : Env) (s : State) (event : Event) : Option StepResult :=
  match event with
  | Event.KeyEvent code =>
    match handle_input env s code with
    | none => none
    | some (Except.error _) =>
        some { next := none, effects := [], snapshots := [] }
    | some (Except.ok (s₁, effects)) =>
        some { next := some s₁, effects := effects, snapshots := [s₁] }
  | Event.TransitionsFetched transitions =>
    let s₁ := { s with transitions := (StatefulList.with_items transitions).next }
    some { next := some s₁, effects := [], snapshots := [s₁] }
  | Event.TransitionExecuted =>
    let s₁ := { s with transitions := StatefulList.new,
                       input_mode := InputMode.IssuesList }
    some { next := some s₁, effects := [], snapshots := [s₁] }
  | Event.IssuesUpdated issues =>
    let s₁ := { s with issues := (StatefulList.with_items issues).next }
    some { next := some s₁, effects := find_relevant_branches_effects s₁,
           snapshots := [s₁] }
  | Event.BoardsUpdated boards =>
    let s₁ := { s with boards := { s.boards with items := boards }.next }
    some { next := some s₁, effects := [], snapshots := [s₁] }
  | Event.BranchesUpdated branches =>
    let s₁ := { s with branches :=
      { state := s.branches.state,
        items := branches ++ [{ name := "Create New" }] } }
    some { next := some s₁, effects := [], snapshots := [s₁] }

/-- Net outcome of running the actor loop over a finite list of events:
the state the loop holds afterwards (none when the loop has exited) and
the snapshots published along the way.  The outer none models a panic
that kills the loop task. -/
structure RunResult where
  final : Option State
  snapshots : List State
  deriving Repr

/-- The actor loop of fn updater folded over a list of events, stopping
at the first break (quit) and aborting at a panic. -/
def run_updater (env : Env) (s : State) : List Event → Option RunResult
  | [] => some { final := some s, snapshots := [] }
  | event :: rest =>
    match updater_step env s event with
    | none => none
    | some r =>
      match r.next with
      | none => some { final := none, snapshots := r.snapshots }
      | some s₁ =>
        (run_updater env s₁ rest).map
          (fun rr => { final := rr.final, snapshots := r.snapshots ++ rr.snapshots })

/-- Body of JiraClient::current_issues (src/jira.rs lines 45-77) after
the query is built: on a successful search the issue summaries are
returned in Ok; on a search error the code calls the panic macro, which
aborts the surrounding task — modelled by none. -/
def current_issues_outcome (search : Except String (List IssueSummary)) :
    Option (Except String (List IssueSummary)) :=
  match search with
  | Except.ok issues => some (Except.ok issues)
  | Except.error _ => none

/-- Body of JiraClient::current_boards (src/jira.rs lines 79-99): same
shape as current_issues_outcome. -/
def current_boards_outcome (search : Except String (List BoardSummary)) :
    Option (Except String (List BoardSummary)) :=
  match search with
  | Except.ok boards => some (Except.ok boards)
  | Except.error _ => none

/-- Body of JiraClient::get_transitions (src/jira.rs lines 101-120):
same shape as current_issues_outcome. -/
def get_transitions_outcome (call : Except String (List TransitionSummary)) :
    Option (Except String (List TransitionSummary)) :=
  match call with
  | Except.ok transitions => some (Except.ok transitions)
  | Except.error _ => none

/-- Events that the task spawned by fn fetch_tickets (src/state.rs lines
86-92) sends on the bus, as a function of the current_issues outcome: an
if-let Ok sends exactly one IssuesUpdated on success and drops an error
silently; a panicked call (outcome none) aborts the task before any
send. -/
def fetch_tickets_events (outcome : Option (Except String (List IssueSummary))) :
    List Event :=
  match outcome with
  | some (Except.ok issues) => [Event.IssuesUpdated issues]
  | some (Except.error _) => []
  | none => []

/-- Events sent by the task spawned by fn fetch_boards (src/state.rs
lines 94-100). -/
def fetch_boards_events (outcome : Option (Except String (List BoardSummary))) :
    List Event :=
  match outcome with
  | some (Except.ok boards) => [Event.BoardsUpdated boards]
  | some (Except.error _) => []
  | none => []

/-- Events sent by the task spawned by fn fetch_transitions (src/state.rs
lines 102-114): nothing when no issue key is selected, otherwise one
TransitionsFetched on a successful call. -/
def fetch_transitions_events (key : Option String)
    (outcome : Option (Except String (List TransitionSummary))) : List Event :=
  match key with
  | none => []
  | some _ =>
    match outcome with
    | some (Except.ok transitions) => [Event.TransitionsFetched transitions]
    | some (Except.error _) => []
    | none => []

/-- Events sent by the task spawned by fn find_relevant_branches
(src/state.rs lines 116-126): one BranchesUpdated only when both
get_current_repo and matching_branches succeed. -/
def find_relevant_branches_events (repo : Except String Unit)
    (branches : Except String (List BranchSummary)) : List Event :=
  match repo with
  | Except.error _ => []
  | Except.ok _ =>
    match branches with
    | Except.ok bs => [Event.BranchesUpdated bs]
    | Except.error _ => []

/-- Events sent by the task spawned by fn do_selected_transition
(src/state.rs lines 128-137): one TransitionExecuted only when a
transition is selected and jira.do_transition succeeds; a failing
do_transition panics inside jira.rs (outcome none), aborting the task
before any send. -/
def do_selected_transition_events (transitions : StatefulList TransitionSummary)
    (issue_key : Option String) (outcome : Option (Except String Unit)) : List Event :=
  match transitions.state.selected with
  | none => []
  | some i =>
    match transitions.items.get? i with
    | none => []
    | some _ =>
      match issue_key with
      | none => []
      | some _ =>
        match outcome with
        | some (Except.ok _) => [Event.TransitionExecuted]
        | some (Except.error _) => []
        | none => []

/-- Navigation operations of the Selection List abstraction. -/
inductive NavOp
  | advance
  | retreat
  | clear
  deriving DecidableEq, Repr

/-- Apply one navigation operation to a Selection List. -/
def applyNav {α : Type} (l : StatefulList α) : NavOp → StatefulList α
  | NavOp.advance => l.next
  | NavOp.retreat => l.previous
  | NavOp.clear => l.unselect

/-- Apply a sequence of navigation operations in order. -/
def applyNavs {α : Type} (l : StatefulList α) (ops : List NavOp) : StatefulList α :=
  ops.foldl applyNav l

/-- Cursor invariant of a Selection List: the cursor, when present, is a
valid index into the sequence (on an empty sequence this forces the
cursor to be absent). -/
def StatefulList.valid {α : Type} (l : StatefulList α) : Prop :=
  ∀ i, l.state.selected = some i → i < l.items.length

/-- A concrete three-element Selection List for instantiating the
navigation properties below. -/
def natList3 : StatefulList Nat := StatefulList.with_items [10, 20, 30]

/-- A concrete navigation sequence for instantiating the navigation
properties below. -/
def navOps3 : List NavOp := [NavOp.advance, NavOp.retreat, NavOp.advance]

/-- Board fixtures for the concrete states used below. -/
def boardA : BoardSummary := { key := 1, name := "Board A", permalink := "https://x/a" }

/-- Second board fixture. -/
def boardB : BoardSummary := { key := 2, name := "Board B", permalink := "https://x/b" }

/-- A state whose boards cursor sits at index 0 with two boards listed. -/
def stateBoardsCursor0 : State :=
  { State.new Config.default with
      boards := { state := { selected := some 0 }, items := [boardA, boardB] } }

/-- A state sitting in EditingDefaultProject mode with OPS typed into
the buffer. -/
def stateEditingProject : State :=
  { State.new Config.default with
      input_mode := InputMode.EditingDefaultProject, input := "OPS" }

/-- An environment whose configuration save fails. -/
def envSaveFails : Env :=
  { Env.allOk with save_config_result := Except.error "disk full" }

theorem StatefulList.valid_next {α : Type} {l : StatefulList α} (h : l.valid) :
    l.next.valid := by
  unfold StatefulList.next
  split
  · exact h
  · rename_i he
    have hlen : 0 < l.items.length := by
      cases hl : l.items with
      | nil => rw [hl] at he; simp at he
      | cons a as => simp [hl]
    split
    · intro i hi
      show i < l.items.length
      simp at hi
      omega
    · rename_i j hj
      split
      · intro i hi
        show i < l.items.length
        simp at hi
        omega
      · rename_i hlt
        intro i hi
        show i < l.items.length
        simp at hi
        omega

theorem StatefulList.valid_previous {α : Type} {l : StatefulList α} (h : l.valid) :
    l.previous.valid := by
  unfold StatefulList.previous
  split
  · exact h
  · rename_i he
    have hlen : 0 < l.items.length := by
      cases hl : l.items with
      | nil => rw [hl] at he; simp at he
      | cons a as => simp [hl]
    split
    · intro i hi
      show i < l.items.length
      simp at hi
      omega
    · rename_i j hj
      split
      · intro i hi
        show i < l.items.length
        simp at hi
        omega
      · rename_i hne
        have hjlt := h j hj
        intro i hi
        show i < l.items.length
        simp at hi
        omega

theorem StatefulList.valid_unselect {α : Type} (l : StatefulList α) :
    l.unselect.valid := by
  intro i hi
  simp [StatefulList.unselect] at hi

theorem StatefulList.valid_applyNavs {α : Type} {l : StatefulList α}
    (ops : List NavOp) (h : l.valid) : (applyNavs l ops).valid := by
  induction ops generalizing l with
  | nil => exact h
  | cons op rest ih =>
    cases op with
    | advance => exact ih (StatefulList.valid_next h)
    | retreat => exact ih (StatefulList.valid_previous h)
    | clear => exact ih (StatefulList.valid_unselect _)

/-- Helper: advancing the cursor never changes the sequence. -/
theorem StatefulList.items_next {α : Type} (l : StatefulList α) :
    l.next.items = l.items := by
  unfold StatefulList.next
  split
  · rfl
  · split
    · rfl
    · split <;> rfl

/-- C7: for every SelectionList and every sequence of navigation
operations, the cursor stays absent or a valid index (absent forced on
an empty sequence); advance() on an empty sequence is a no-op, advance()
from an absent cursor selects index 0, advance() at the last index wraps
to index 0, and retreat() past index 0 yields the last index (retreat()
on an empty sequence is likewise a no-op). -/
theorem c7_selection_list_navigation {α : Type} (l : StatefulList α)
    (ops : List NavOp) (h : l.valid) :
    (applyNavs l ops).valid ∧
    ((applyNavs l ops).items = [] → (applyNavs l ops).state.selected = none) ∧
    (l.items = [] → l.next = l) ∧
    (l.state.selected = none → l.items ≠ [] → l.next.state.selected = some 0) ∧
    (l.state.selected = some (l.items.length - 1) → l.items ≠ [] →
      l.next.state.selected = some 0) ∧
    (l.state.selected = some 0 → l.items ≠ [] →
      l.previous.state.selected = some (l.items.length - 1)) ∧
    (l.items = [] → l.previous = l) := by
  have hv := StatefulList.valid_applyNavs ops h
  refine ⟨hv, ?_, ?_, ?_, ?_, ?_, ?_⟩
  · intro hemp
    cases hsel : (applyNavs l ops).state.selected with
    | none => rfl
    | some i =>
      have := hv i hsel
      rw [hemp] at this
      simp at this
  · intro hemp
    unfold StatefulList.next
    simp [hemp]
  · intro hs hne
    unfold StatefulList.next
    simp [hs, hne]
  · intro hs hne
    have hlen : 0 < l.items.length := List.length_pos.mpr hne
    have hcond : l.items.length - 1 + 1 ≥ l.items.length := by omega
    unfold StatefulList.next
    simp [hs, hne, hcond]
  · intro hs hne
    unfold StatefulList.previous
    simp [hs, hne]
  · intro hemp
    unfold StatefulList.previous
    simp [hemp]

/-- C7 witness: the invariant and every boundary fact instantiated at a
concrete three-element list and a concrete operation sequence. -/
theorem c7_selection_list_navigation_witness :
    natList3.valid ∧
    ((applyNavs natList3 navOps3).valid ∧
     ((applyNavs natList3 navOps3).items = [] →
       (applyNavs natList3 navOps3).state.selected = none) ∧
     (natList3.items = [] → natList3.next = natList3) ∧
     (natList3.state.selected = none → natList3.items ≠ [] →
       natList3.next.state.selected = some 0) ∧
     (natList3.state.selected = some (natList3.items.length - 1) →
       natList3.items ≠ [] → natList3.next.state.selected = some 0) ∧
     (natList3.state.selected = some 0 → natList3.items ≠ [] →
       natList3.previous.state.selected = some (natList3.items.length - 1)) ∧
     (natList3.items = [] → natList3.previous = natList3)) :=
  ⟨fun i hi => by simp [natList3, StatefulList.with_items] at hi,
   c7_selection_list_navigation natList3 navOps3
     (fun i hi => by simp [natList3, StatefulList.with_items] at hi)⟩

/-- C1 (amended): an event whose processing leaves the loop running is
followed by exactly one snapshot, namely the updated state; an event
whose processing terminates the loop publishes no snapshot. -/
theorem c1_snapshot_per_processed_event (env : Env) (s : State) (e : Event)
    (r : StepResult) (h : updater_step env s e = some r) :
    (∀ s₁, r.next = some s₁ → r.snapshots = [s₁]) ∧
    (r.next = none → r.snapshots = []) := by
  cases e with
  | KeyEvent code =>
    cases hh : handle_input env s code with
    | none => simp [updater_step, hh] at h
    | some res =>
      cases res with
      | error msg =>
        simp only [updater_step, hh, Option.some.injEq] at h
        subst h
        exact ⟨fun s₁ hs₁ => (nomatch hs₁), fun _ => rfl⟩
      | ok p =>
        obtain ⟨s₁, effects⟩ := p
        simp only [updater_step, hh, Option.some.injEq] at h
        subst h
        refine ⟨fun s₂ hs₂ => ?_, fun hn => nomatch hn⟩
        simp only [Option.some.injEq] at hs₂
        rw [hs₂]
  | IssuesUpdated issues =>
    simp only [updater_step, Option.some.injEq] at h
    subst h
    refine ⟨fun s₁ hs₁ => ?_, fun hn => nomatch hn⟩
    simp only [Option.some.injEq] at hs₁
    rw [hs₁]
  | BoardsUpdated boards =>
    simp only [updater_step, Option.some.injEq] at h
    subst h
    refine ⟨fun s₁ hs₁ => ?_, fun hn => nomatch hn⟩
    simp only [Option.some.injEq] at hs₁
    rw [hs₁]
  | BranchesUpdated branches =>
    simp only [updater_step, Option.some.injEq] at h
    subst h
    refine ⟨fun s₁ hs₁ => ?_, fun hn => nomatch hn⟩
    simp only [Option.some.injEq] at hs₁
    rw [hs₁]
  | TransitionsFetched transitions =>
    simp only [updater_step, Option.some.injEq] at h
    subst h
    refine ⟨fun s₁ hs₁ => ?_, fun hn => nomatch hn⟩
    simp only [Option.some.injEq] at hs₁
    rw [hs₁]
  | TransitionExecuted =>
    simp only [updater_step, Option.some.injEq] at h
    subst h
    refine ⟨fun s₁ hs₁ => ?_, fun hn => nomatch hn⟩
    simp only [Option.some.injEq] at hs₁
    rw [hs₁]

/-- C1 counterexample: the quit key event is consumed by the loop,
terminates it, and is followed by zero snapshots, not one. -/
theorem c1_counterexample :
    updater_step Env.allOk (State.new Config.default)
      (Event.KeyEvent (KeyCode.Char 'q')) =
      some { next := none, effects := [], snapshots := [] } := by
  rfl

/-- C1 witness: a concrete non-terminating event publishes exactly its
updated state as the one snapshot. -/
theorem c1_snapshot_per_processed_event_witness :
    updater_step Env.allOk (State.new Config.default) Event.TransitionExecuted =
      some { next := some (State.new Config.default), effects := [],
             snapshots := [State.new Config.default] } ∧
    ((∀ s₁, some (State.new Config.default) = some s₁ →
        [State.new Config.default] = [s₁]) ∧
     (some (State.new Config.default) = (none : Option State) →
        [State.new Config.default] = ([] : List State))) :=
  ⟨by rfl,
   c1_snapshot_per_processed_event Env.allOk (State.new Config.default)
     Event.TransitionExecuted
     { next := some (State.new Config.default), effects := [],
       snapshots := [State.new Config.default] } (by rfl)⟩

/-- C2: at the failing input — key q in IssuesList mode — handle_input
signals termination by returning an error value built by the bail!
macro, not by an explicit Continue/Quit outcome value; the loop then
breaks on is_err. -/
theorem c2_quit_is_a_returned_error :
    handle_input Env.allOk (State.new Config.default) (KeyCode.Char 'q') =
      some (Except.error "Just exiting early") := by
  rfl

/-- C3: every completion event is applied unconditionally — for an
arbitrary state, in particular an arbitrary active InputMode, the
corresponding SelectionList's sequence is replaced by the event's
payload (with the sentinel appended for branches), the other lists are
untouched, and the mode is preserved except for TransitionExecuted,
which resets the transitions list and returns to IssuesList. -/
theorem c3_completion_events_unconditional (env : Env) (s : State)
    (issues : List IssueSummary) (boards : List BoardSummary)
    (branches : List BranchSummary) (transitions : List TransitionSummary) :
    (∃ s₁, (updater_step env s (Event.IssuesUpdated issues)).map StepResult.next =
        some (some s₁) ∧
      s₁.issues.items = issues ∧ s₁.input_mode = s.input_mode ∧
      s₁.boards = s.boards ∧ s₁.branches = s.branches ∧
      s₁.transitions = s.transitions) ∧
    (∃ s₁, (updater_step env s (Event.BoardsUpdated boards)).map StepResult.next =
        some (some s₁) ∧
      s₁.boards.items = boards ∧ s₁.input_mode = s.input_mode ∧
      s₁.issues = s.issues ∧ s₁.branches = s.branches ∧
      s₁.transitions = s.transitions) ∧
    (∃ s₁, (updater_step env s (Event.BranchesUpdated branches)).map StepResult.next =
        some (some s₁) ∧
      s₁.branches.items = branches ++ [{ name := "Create New" }] ∧
      s₁.input_mode = s.input_mode ∧
      s₁.issues = s.issues ∧ s₁.boards = s.boards ∧
      s₁.transitions = s.transitions) ∧
    (∃ s₁, (updater_step env s (Event.TransitionsFetched transitions)).map StepResult.next =
        some (some s₁) ∧
      s₁.transitions.items = transitions ∧ s₁.input_mode = s.input_mode ∧
      s₁.issues = s.issues ∧ s₁.boards = s.boards ∧
      s₁.branches = s.branches) ∧
    (∃ s₁, (updater_step env s Event.TransitionExecuted).map StepResult.next =
        some (some s₁) ∧
      s₁.transitions = StatefulList.new ∧
      s₁.input_mode = InputMode.IssuesList ∧
      s₁.issues = s.issues ∧ s₁.boards = s.boards ∧
      s₁.branches = s.branches) := by
  refine ⟨⟨_, rfl, ?_, rfl, rfl, rfl, rfl⟩,
          ⟨_, rfl, ?_, rfl, rfl, rfl, rfl⟩,
          ⟨_, rfl, rfl, rfl, rfl, rfl, rfl⟩,
          ⟨_, rfl, ?_, rfl, rfl, rfl, rfl⟩,
          ⟨_, rfl, rfl, rfl, rfl, rfl, rfl⟩⟩
  · exact StatefulList.items_next _
  · exact StatefulList.items_next _
  · exact StatefulList.items_next _

/-- C4: an IssuesFetched event with a non-empty payload moves the issues
cursor to index 0 and spawns exactly one branch-lookup effect, carrying
the key of the issue at index 0. -/
theorem c4_issues_fetched_selects_first_and_fetches_branches (env : Env)
    (s : State) (x : IssueSummary) (rest : List IssueSummary) :
    ∃ s₁, updater_step env s (Event.IssuesUpdated (x :: rest)) =
        some { next := some s₁, effects := [Effect.FindBranches x.key],
               snapshots := [s₁] } ∧
      s₁.issues.state.selected = some 0 := by
  refine ⟨{ s with issues := (StatefulList.with_items (x :: rest)).next }, ?_, ?_⟩
  · simp only [updater_step]
    unfold find_relevant_branches_effects State.selected_issue_key
    simp [StatefulList.with_items, StatefulList.next]
  · simp [StatefulList.with_items, StatefulList.next]

/-- C5: after any BranchesFetched event the branch list is non-empty and
its final entry is the Create New sentinel, whether the fetched set was
empty or not. -/
theorem c5_branches_always_end_with_sentinel (env : Env) (s : State)
    (branches : List BranchSummary) :
    ∃ s₁, updater_step env s (Event.BranchesUpdated branches) =
        some { next := some s₁, effects := [], snapshots := [s₁] } ∧
      s₁.branches.items ≠ [] ∧
      s₁.branches.items.getLast? = some { name := "Create New" } := by
  refine ⟨{ s with branches :=
    { state := s.branches.state,
      items := branches ++ [{ name := "Create New" }] } }, rfl, ?_, ?_⟩
  · simp
  · simp

/-- C6: the issue query is the AND-join of an assignee clause (iff
mine-only), one status clause (numeric when in-progress-only, otherwise
the Prioritised literal), and a project clause (iff the project key is
non-empty); in particular the two spec examples hold. -/
theorem c6_query_composition :
    (∀ key : String, key ≠ "" → ∀ mine in_progress : Bool,
      current_issues_query
          { default_project_key := key, filter_in_progress := in_progress,
            filter_mine := mine } =
        current_issues_query
            { default_project_key := "", filter_in_progress := in_progress,
              filter_mine := mine } ++
          " AND project = \"" ++ key ++ "\"") ∧
    current_issues_query
        { default_project_key := "", filter_in_progress := true, filter_mine := true } =
      "assignee=currentuser() AND status=3" ∧
    current_issues_query
        { default_project_key := "", filter_in_progress := false, filter_mine := true } =
      "assignee=currentuser() AND status=\"Prioritised\"" ∧
    current_issues_query
        { default_project_key := "", filter_in_progress := true, filter_mine := false } =
      "status=3" ∧
    current_issues_query
        { default_project_key := "", filter_in_progress := false, filter_mine := false } =
      "status=\"Prioritised\"" ∧
    current_issues_query
        { default_project_key := "OPS", filter_in_progress := true, filter_mine := true } =
      "assignee=currentuser() AND status=3 AND project = \"OPS\"" := by
  refine ⟨?_, by decide, by decide, by decide, by decide, by decide⟩
  intro key h mine in_progress
  cases mine <;> cases in_progress <;>
    simp [current_issues_query, String.intercalate, String.intercalate.go, h,
      String.append_assoc] <;>
    (try rw [← String.append_assoc]) <;> (try rfl)

/-- C6 witness: the project-clause composition instantiated at the OPS
key with both filters on. -/
theorem c6_query_composition_witness :
    ("OPS" ≠ "") ∧
    current_issues_query
        { default_project_key := "OPS", filter_in_progress := true,
          filter_mine := true } =
      current_issues_query
          { default_project_key := "", filter_in_progress := true,
            filter_mine := true } ++
        " AND project = \"" ++ "OPS" ++ "\"" :=
  ⟨by decide, c6_query_composition.1 "OPS" (by decide) true true⟩

/-- C8 counterexample: a BoardsFetched event carrying a non-empty list,
received in a state whose boards cursor is at index 0, leaves the cursor
at index 1 rather than resetting it to the first element: the handler
assigns the items in place and advances the existing cursor. -/
theorem c8_counterexample :
    (updater_step Env.allOk stateBoardsCursor0
        (Event.BoardsUpdated [boardA, boardB])).map
      (fun r => r.next.map (fun s => s.boards.state.selected)) =
      some (some (some 1)) := by
  rfl

/-- C8 (amended): the IssuesFetched and TransitionsFetched handlers
replace the sequence wholesale and reset the cursor — to index 0 when
the new sequence is non-empty, to absent when it is empty; the
BoardsFetched handler instead keeps the prior cursor and advances it
once (so it lands on index 0 only from an absent or last-index cursor),
and the BranchesFetched handler leaves the cursor state untouched. -/
theorem c8_replacement_cursor_behavior (env : Env) (s : State)
    (issues : List IssueSummary) (transitions : List TransitionSummary)
    (boards : List BoardSummary) (branches : List BranchSummary) :
    (∃ s₁, (updater_step env s (Event.IssuesUpdated issues)).map StepResult.next =
        some (some s₁) ∧
      s₁.issues.state.selected = (if issues = [] then none else some 0)) ∧
    (∃ s₁, (updater_step env s (Event.TransitionsFetched transitions)).map StepResult.next =
        some (some s₁) ∧
      s₁.transitions.state.selected = (if transitions = [] then none else some 0)) ∧
    (∃ s₁, (updater_step env s (Event.BoardsUpdated boards)).map StepResult.next =
        some (some s₁) ∧
      s₁.boards.items = boards ∧
      s₁.boards.state.selected =
        (if boards = [] then s.boards.state.selected
         else
           match s.boards.state.selected with
           | none => some 0
           | some i => if i + 1 ≥ boards.length then some 0 else some (i + 1))) ∧
    (∃ s₁, (updater_step env s (Event.BranchesUpdated branches)).map StepResult.next =
        some (some s₁) ∧
      s₁.branches.state = s.branches.state) := by
  refine ⟨⟨_, rfl, ?_⟩, ⟨_, rfl, ?_⟩, ⟨_, rfl, ?_, ?_⟩, ⟨_, rfl, rfl⟩⟩
  · cases issues <;> simp [StatefulList.with_items, StatefulList.next]
  · cases transitions <;> simp [StatefulList.with_items, StatefulList.next]
  · exact StatefulList.items_next _
  · cases boards with
    | nil => simp [StatefulList.next]
    | cons b bs =>
      cases hsel : s.boards.state.selected with
      | none => simp [StatefulList.next, hsel]
      | some i =>
        simp only [StatefulList.next, hsel, List.isEmpty_cons, Bool.false_eq_true,
          if_false, reduceCtorEq]
        split <;> simp_all

/-- C9: when the external collaborator's call behind any fetch operation
fails, the spawned task emits no completion event at all (so there is no
retry either), and the actor loop — which only ever changes state when
an event arrives — is left alive with every SelectionList unchanged. -/
theorem c9_failed_fetch_emits_nothing_and_preserves_state (err : String)
    (env : Env) (s : State) (key : Option String)
    (transitions : StatefulList TransitionSummary) (issue_key : Option String)
    (branches_result : Except String (List BranchSummary)) :
    fetch_tickets_events (current_issues_outcome (Except.error err)) = [] ∧
    fetch_boards_events (current_boards_outcome (Except.error err)) = [] ∧
    fetch_transitions_events key (get_transitions_outcome (Except.error err)) = [] ∧
    find_relevant_branches_events (Except.error err) branches_result = [] ∧
    find_relevant_branches_events (Except.ok ()) (Except.error err) = [] ∧
    do_selected_transition_events transitions issue_key
      (some (Except.error err)) = [] ∧
    do_selected_transition_events transitions issue_key none = [] ∧
    run_updater env s (fetch_tickets_events (current_issues_outcome
      (Except.error err))) = some { final := some s, snapshots := [] } := by
  refine ⟨rfl, rfl, ?_, rfl, rfl, ?_, ?_, rfl⟩
  · cases key <;> rfl
  · unfold do_selected_transition_events
    repeat' split
    all_goals simp_all
  · unfold do_selected_transition_events
    repeat' split
    all_goals simp_all

/-- C10: in EditingDefaultProject mode, Enter with a failing
configuration save leaves an inconsistent partial update: the in-memory
config already holds the newly entered project key, the mode stays
EditingDefaultProject, no ticket fetch is spawned (the effect list is
empty), and the text buffer is overwritten with the error's message. -/
theorem c10_default_project_save_failure (env : Env) (s : State) (msg : String)
    (hmode : s.input_mode = InputMode.EditingDefaultProject)
    (hsave : env.save_config_result = Except.error msg) :
    ∃ s₁, handle_input env s KeyCode.Enter = some (Except.ok (s₁, [])) ∧
      s₁.config.default_project_key = s.input ∧
      s₁.input_mode = InputMode.EditingDefaultProject ∧
      s₁.input = msg ∧
      s₁.issues = s.issues ∧ s₁.boards = s.boards ∧
      s₁.branches = s.branches ∧ s₁.transitions = s.transitions := by
  refine ⟨{ s with config := { s.config with default_project_key := s.input },
                   input := msg }, ?_, rfl, ?_, rfl, rfl, rfl, rfl, rfl⟩
  · unfold handle_input
    rw [hmode]
    simp [hsave, hiOk]
  · simp [hmode]

/-- C10 witness: a concrete state in EditingDefaultProject mode with a
failing save exhibits the partial update. -/
theorem c10_default_project_save_failure_witness :
    ((stateEditingProject.input_mode = InputMode.EditingDefaultProject) ∧
     (envSaveFails.save_config_result = Except.error "disk full")) ∧
    (∃ s₁, handle_input envSaveFails stateEditingProject KeyCode.Enter =
        some (Except.ok (s₁, [])) ∧
      s₁.config.default_project_key = stateEditingProject.input ∧
      s₁.input_mode = InputMode.EditingDefaultProject ∧
      s₁.input = "disk full" ∧
      s₁.issues = stateEditingProject.issues ∧
      s₁.boards = stateEditingProject.boards ∧
      s₁.branches = stateEditingProject.branches ∧
      s₁.transitions = stateEditingProject.transitions) :=
  ⟨⟨rfl, rfl⟩,
   c10_default_project_save_failure envSaveFails stateEditingProject "disk full"
     rfl rfl⟩
